import Mathlib

/-!
Verification of the launch action in
`src/js_modules/dagit/packages/core/src/launchpad/LaunchRootExecutionButton.tsx`.

The component's `onLaunch` async handler is embedded as a pure function from an
environment (the provider's result and the outcomes of each collaborator call)
to the list of collaborator invocations it performs, in order.  JavaScript
truthiness on optional strings and arrays is modelled explicitly.
-/

namespace LaunchRootExecution

/-- The `selector` part of `LaunchPipelineExecutionVariables.executionParams`.
`jobName` and `pipelineName` are optional strings (a TS `string | undefined`);
`solidSelection` is an optional array of op names. -/
structure Selector where
  jobName : Option String
  pipelineName : Option String
  solidSelection : Option (List String)
deriving DecidableEq, Repr

/-- `executionParams` of the mutation variables object. -/
structure ExecutionParams where
  selector : Selector
deriving DecidableEq, Repr

/-- The variables object returned by `props.getVariables()`. -/
structure LaunchPipelineExecutionVariables where
  executionParams : ExecutionParams
deriving DecidableEq, Repr

/-- JavaScript truthiness of a `string | undefined` value:
`undefined` and the empty string are falsy. -/
def truthyStr : Option String → Bool
  | none => false
  | some s => !(s == "")

/-- JavaScript truthiness of an `array | undefined` value: every array object,
including the empty array, is truthy; only `undefined`/`null` is falsy. -/
def truthyArr : Option (List String) → Bool
  | none => false
  | some _ => true

/-- JavaScript `a || b` on a `string | undefined` left operand: returns `a`
when truthy, otherwise returns `b` unchanged. -/
def jsOrOpt (a b : Option String) : Option String :=
  if truthyStr a then a else b

/-- Modelled from the spec: `TelemetryAction.LAUNCH_RUN` lives in the Telemetry
module, which is outside the excerpt; the spec records the action name as
`"LAUNCH_RUN"`. Its exact value decides none of the claims. -/
def LAUNCH_RUN : String := "LAUNCH_RUN"

/-- The `metadata` object built by `onLaunch` before the mutation call, as an
association list in insertion order.  Mirrors:
`if (selector.solidSelection) metadata.opSelection = 'provided';`
`metadata.jobName = selector.jobName || selector.pipelineName;`
(The `jobName` key is always assigned; its value may be `undefined`.) -/
def mkMetadata (vars : LaunchPipelineExecutionVariables) :
    List (String × Option String) :=
  (if truthyArr vars.executionParams.selector.solidSelection then
    [("opSelection", some "provided")]
  else []) ++
  [("jobName",
    jsOrOpt vars.executionParams.selector.jobName
      vars.executionParams.selector.pipelineName)]

/-- The `behavior` prop: `'open' | 'open-in-new-tab' | 'toast'`. -/
inductive Behavior where
  | openInPlace
  | openInNewTab
  | toast
deriving DecidableEq, Repr

/-- One collaborator invocation performed by `onLaunch`, in program order:
the GraphQL mutation call, the telemetry emission, the call to
`handleLaunchResult`, or the call to `showLaunchError`. -/
inductive Event where
  | mutationCall (vars : LaunchPipelineExecutionVariables)
  | telemetry (action : String) (metadata : List (String × Option String))
  | handleResult (pipelineName : String) (result : String) (behavior : Behavior)
  | showError (err : String)
deriving DecidableEq, Repr

/-- The environment of one `onLaunch` invocation: what `props.getVariables()`
returns, and the outcome (normal return or thrown error, both opaque strings)
of each collaborator call, should it be reached. -/
structure LaunchEnv where
  getVariables : Option LaunchPipelineExecutionVariables
  launchPipelineExecution : Except String String
  logTelemetryOutcome : Except String Unit
  handleLaunchResultOutcome : Except String Unit
  pipelineName : String
  behavior : Behavior
deriving Repr

/-- The `onLaunch` async handler, as the trace of collaborator invocations it
performs.  Mirrors the source: early return when `variables == null`; then
`try { const result = await launchPipelineExecution(...);
logTelemetry(LAUNCH_RUN, metadata); handleLaunchResult(...); }
catch (error) { showLaunchError(error); }` — the catch covers all three
statements, so a throw from any of them is absorbed into `showLaunchError`. -/
def onLaunch (env : LaunchEnv) : List Event :=
  match env.getVariables with
  | none => []
  | some vars =>
    let metadata := mkMetadata vars
    Event.mutationCall vars ::
      match env.launchPipelineExecution with
      | .error e => [Event.showError e]
      | .ok result =>
        Event.telemetry LAUNCH_RUN metadata ::
          match env.logTelemetryOutcome with
          | .error e => [Event.showError e]
          | .ok _ =>
            Event.handleResult env.pipelineName result env.behavior ::
              match env.handleLaunchResultOutcome with
              | .error e => [Event.showError e]
              | .ok _ => []

/-- Is this event the GraphQL mutation (network) call? -/
def Event.isMutationCall : Event → Bool
  | .mutationCall _ => true
  | _ => false

/-- Is this event a telemetry emission? -/
def Event.isTelemetry : Event → Bool
  | .telemetry _ _ => true
  | _ => false

/-- Is this event the result-handling (navigation) step? -/
def Event.isHandleResult : Event → Bool
  | .handleResult _ _ _ => true
  | _ => false

/-- Number of mutation (network) calls in a trace. -/
def countMutations (t : List Event) : Nat := t.countP (·.isMutationCall)

/-- Number of telemetry emissions in a trace. -/
def countTelemetry (t : List Event) : Nat := t.countP (·.isTelemetry)

/-- Number of result-handling invocations in a trace. -/
def countHandleResult (t : List Event) : Nat := t.countP (·.isHandleResult)

/-- Did the `Except` computation complete without throwing? -/
def isOk : Except String String → Bool
  | .ok _ => true
  | .error _ => false

/-- Modelled from the spec: `DISABLED_MESSAGE` lives in the Permissions module,
outside the excerpt; the spec only calls it "an explanatory disabled-reason".
Its exact wording decides none of the claims. -/
def DISABLED_MESSAGE : String := "Disabled by your administrator."

/-- The config object passed to `LaunchButton` by the component's render. -/
structure LaunchButtonConfig where
  icon : String
  title : String
  disabled : Bool
  tooltip : Option String
deriving DecidableEq, Repr

/-- JavaScript `a || b` with a string default on the right. -/
def jsOrDefault (a : Option String) (b : String) : String :=
  match a with
  | none => b
  | some s => if s == "" then b else s

/-- The config built in the component's JSX:
`{onClick: onLaunch, icon: props.icon || 'open_in_new',
title: props.title || 'Launch Run',
disabled: props.disabled || !canLaunchPipelineExecution,
tooltip: !canLaunchPipelineExecution ? DISABLED_MESSAGE : undefined}`. -/
def launchButtonConfig (propsDisabled : Bool) (canLaunchPipelineExecution : Bool)
    (propsIcon propsTitle : Option String) : LaunchButtonConfig :=
  { icon := jsOrDefault propsIcon "open_in_new"
    title := jsOrDefault propsTitle "Launch Run"
    disabled := propsDisabled || !canLaunchPipelineExecution
    tooltip := if !canLaunchPipelineExecution then some DISABLED_MESSAGE else none }

/-! ### Concrete environments used as test inputs -/

/-- An invocation where the parameter provider returns no request. -/
def envNoRequest : LaunchEnv :=
  { getVariables := none
    launchPipelineExecution := .ok "runA"
    logTelemetryOutcome := .ok ()
    handleLaunchResultOutcome := .ok ()
    pipelineName := "pipe1"
    behavior := .openInPlace }

/-- A fully-populated request: explicit job name, legacy pipeline name and an
op selection subset. -/
def fullVars : LaunchPipelineExecutionVariables :=
  ⟨⟨{ jobName := some "job1", pipelineName := some "pipe1",
      solidSelection := some ["op1"] }⟩⟩

/-- A request whose job-name and legacy pipeline-name fields are both empty. -/
def emptyNameVars : LaunchPipelineExecutionVariables :=
  ⟨⟨{ jobName := none, pipelineName := some "", solidSelection := none }⟩⟩

/-- An invocation whose submission call resolves normally. -/
def envResolved : LaunchEnv :=
  { getVariables := some fullVars
    launchPipelineExecution := .ok "runA"
    logTelemetryOutcome := .ok ()
    handleLaunchResultOutcome := .ok ()
    pipelineName := "pipe1"
    behavior := .openInPlace }

/-- An invocation whose submission call throws. -/
def envThrown : LaunchEnv :=
  { getVariables := some fullVars
    launchPipelineExecution := .error "network unreachable"
    logTelemetryOutcome := .ok ()
    handleLaunchResultOutcome := .ok ()
    pipelineName := "pipe1"
    behavior := .openInPlace }

/-- An invocation carrying a request with both name fields empty, whose
submission call resolves normally. -/
def envEmptyName : LaunchEnv :=
  { getVariables := some emptyNameVars
    launchPipelineExecution := .ok "runA"
    logTelemetryOutcome := .ok ()
    handleLaunchResultOutcome := .ok ()
    pipelineName := ""
    behavior := .openInPlace }

/-! ### Helper lemmas -/

/-- Both name fields of the request are empty (absent or the empty string). -/
def nameAbsent (vars : LaunchPipelineExecutionVariables) : Bool :=
  !truthyStr vars.executionParams.selector.jobName &&
    !truthyStr vars.executionParams.selector.pipelineName

/-- Every telemetry event in an `onLaunch` trace carries the `LAUNCH_RUN`
action and the metadata derived from the provider's request. -/
theorem telemetry_mem_onLaunch {env : LaunchEnv} {v : LaunchPipelineExecutionVariables}
    {a : String} {m : List (String × Option String)}
    (hv : env.getVariables = some v)
    (hm : Event.telemetry a m ∈ onLaunch env) :
    a = LAUNCH_RUN ∧ m = mkMetadata v := by
  obtain ⟨gv, lp, lt, hr, pn, bh⟩ := env
  simp only [LaunchEnv.getVariables] at hv
  subst hv
  rcases lp with e | r <;> rcases lt with e' | u <;> rcases hr with e'' | u' <;>
    simp only [onLaunch, List.mem_cons, List.mem_singleton, List.not_mem_nil] at hm <;>
    simp_all

/-- Looking up `opSelection` in the derived metadata: present with value
`"provided"` exactly when the request carries a solid-selection array. -/
theorem lookup_opSelection (jn pn : Option String) (ss : Option (List String)) :
    (mkMetadata ⟨⟨⟨jn, pn, ss⟩⟩⟩).lookup "opSelection" =
      if truthyArr ss then some (some "provided") else none := by
  cases ss <;> rfl

/-- Looking up `jobName` in the derived metadata: always present, with the
JavaScript `jobName || pipelineName` value. -/
theorem lookup_jobName (jn pn : Option String) (ss : Option (List String)) :
    (mkMetadata ⟨⟨⟨jn, pn, ss⟩⟩⟩).lookup "jobName" = some (jsOrOpt jn pn) := by
  cases ss <;> rfl

/-! ### Claims -/

/-- Claim C1: when the parameter provider (`getVariables`) returns no request,
`onLaunch` performs no collaborator invocation at all — in particular no
network (mutation) call and no telemetry emission — and returns silently. -/
theorem C1_no_request_silent_noop (env : LaunchEnv)
    (h : env.getVariables = none) :
    onLaunch env = [] ∧ countMutations (onLaunch env) = 0 ∧
      countTelemetry (onLaunch env) = 0 := by
  unfold onLaunch
  rw [h]
  simp [countMutations, countTelemetry]

/-- Witness for C1 at a concrete environment. -/
theorem C1_witness :
    onLaunch envNoRequest = [] ∧ countMutations (onLaunch envNoRequest) = 0 ∧
      countTelemetry (onLaunch envNoRequest) = 0 :=
  C1_no_request_silent_noop envNoRequest rfl

/-- Claim C2, counterexample: a request whose job-name and legacy pipeline-name
fields are both empty is NOT aborted — the network call and the telemetry
emission still occur, because the source gates only on `variables == null`. -/
theorem C2_counterexample :
    nameAbsent emptyNameVars = true ∧
      envEmptyName.getVariables = some emptyNameVars ∧
      countMutations (onLaunch envEmptyName) = 1 ∧
      countTelemetry (onLaunch envEmptyName) = 1 := by
  decide

/-- Claim C2, amended: the launch is aborted without side effects exactly when
the provider returns no request; a request with both name fields empty is not
special-cased and is still submitted (one network call). -/
theorem C2_amended_gate (env : LaunchEnv) :
    (onLaunch env = [] ↔ env.getVariables = none) ∧
    (∀ v, env.getVariables = some v → nameAbsent v = true →
      countMutations (onLaunch env) = 1) := by
  obtain ⟨gv, lp, lt, hr, pn, bh⟩ := env
  rcases gv with _ | v
  · simp [onLaunch]
  · constructor
    · simp [onLaunch]
    · intro w hw _
      rcases lp with e | r <;> rcases lt with e' | u <;> rcases hr with e'' | u' <;>
        simp [onLaunch, countMutations, List.countP, List.countP.go,
          Event.isMutationCall]

/-- Witness for the amended C2 at a concrete environment. -/
theorem C2_witness :
    countMutations (onLaunch envEmptyName) = 1 :=
  (C2_amended_gate envEmptyName).2 emptyNameVars rfl rfl

/-- Claim C3: when an invocation reaches the submission call, telemetry is
emitted exactly when the call completes without throwing — immediately after
it resolves (the trace's second event) and before the result-handling step
(no result handling among the first two events) — and never when it throws. -/
theorem C3_telemetry_on_resolve (env : LaunchEnv) (v : LaunchPipelineExecutionVariables)
    (hv : env.getVariables = some v) :
    (countTelemetry (onLaunch env) =
      if isOk env.launchPipelineExecution then 1 else 0) ∧
    (∀ r, env.launchPipelineExecution = .ok r →
      (onLaunch env).take 2 =
        [Event.mutationCall v, Event.telemetry LAUNCH_RUN (mkMetadata v)]) ∧
    countHandleResult ((onLaunch env).take 2) = 0 ∧
    (∀ e, env.launchPipelineExecution = .error e →
      countTelemetry (onLaunch env) = 0) := by
  obtain ⟨gv, lp, lt, hr, pn, bh⟩ := env
  simp only [LaunchEnv.getVariables] at hv
  subst hv
  rcases lp with e | r <;> rcases lt with e' | u <;> rcases hr with e'' | u' <;>
    simp [onLaunch, countTelemetry, countHandleResult, isOk, List.countP,
      List.countP.go, Event.isTelemetry, Event.isHandleResult]

/-- Witness for C3 at a concrete environment. -/
theorem C3_witness :
    (countTelemetry (onLaunch envResolved) =
      if isOk envResolved.launchPipelineExecution then 1 else 0) ∧
    (∀ r, envResolved.launchPipelineExecution = .ok r →
      (onLaunch envResolved).take 2 =
        [Event.mutationCall fullVars, Event.telemetry LAUNCH_RUN (mkMetadata fullVars)]) ∧
    countHandleResult ((onLaunch envResolved).take 2) = 0 ∧
    (∀ e, envResolved.launchPipelineExecution = .error e →
      countTelemetry (onLaunch envResolved) = 0) :=
  C3_telemetry_on_resolve envResolved fullVars rfl

/-- Claim C4: when the submission call throws, the trace is exactly the
mutation call followed by `showLaunchError` applied to that very error — so no
telemetry and no result handling occur after the throw point, and the error is
absorbed rather than propagated (the handler still returns a trace). -/
theorem C4_throw_shows_error (env : LaunchEnv) (v : LaunchPipelineExecutionVariables)
    (e : String) (hv : env.getVariables = some v)
    (he : env.launchPipelineExecution = .error e) :
    onLaunch env = [Event.mutationCall v, Event.showError e] ∧
      countTelemetry (onLaunch env) = 0 ∧
      countHandleResult (onLaunch env) = 0 := by
  obtain ⟨gv, lp, lt, hr, pn, bh⟩ := env
  simp only [LaunchEnv.getVariables] at hv
  simp only [LaunchEnv.launchPipelineExecution] at he
  subst hv
  subst he
  simp [onLaunch, countTelemetry, countHandleResult, List.countP,
    List.countP.go, Event.isTelemetry, Event.isHandleResult]

/-- Witness for C4 at a concrete environment. -/
theorem C4_witness :
    onLaunch envThrown =
        [Event.mutationCall fullVars, Event.showError "network unreachable"] ∧
      countTelemetry (onLaunch envThrown) = 0 ∧
      countHandleResult (onLaunch envThrown) = 0 :=
  C4_throw_shows_error envThrown fullVars "network unreachable" rfl rfl

/-- Claim C5: in every telemetry event the action emits, the metadata contains
`opSelection = "provided"` exactly when the request carries a solid-selection
array; with no such array the key is absent. -/
theorem C5_opSelection_iff_subset (env : LaunchEnv)
    (v : LaunchPipelineExecutionVariables) (hv : env.getVariables = some v) :
    ∀ a m, Event.telemetry a m ∈ onLaunch env →
      ((m.lookup "opSelection" = some (some "provided")) ↔
        v.executionParams.selector.solidSelection.isSome = true) ∧
      (v.executionParams.selector.solidSelection = none →
        m.lookup "opSelection" = none) := by
  intro a m hm
  obtain ⟨rfl, rfl⟩ := telemetry_mem_onLaunch hv hm
  obtain ⟨⟨⟨jn, pn, ss⟩⟩⟩ := v
  rw [lookup_opSelection]
  cases ss <;> simp [truthyArr]

/-- Witness for C5 at a concrete environment and telemetry event. -/
theorem C5_witness :
    ((mkMetadata fullVars).lookup "opSelection" = some (some "provided")) ↔
      fullVars.executionParams.selector.solidSelection.isSome = true :=
  (C5_opSelection_iff_subset envResolved fullVars rfl LAUNCH_RUN (mkMetadata fullVars)
    (by decide)).1

/-- Claim C6: in every telemetry event the action emits, the metadata's
`jobName` equals the request's job-name field when that field is set
(non-empty), and otherwise falls back to the legacy pipeline-name field. -/
theorem C6_jobName_prefers_explicit (env : LaunchEnv)
    (v : LaunchPipelineExecutionVariables) (hv : env.getVariables = some v) :
    ∀ a m, Event.telemetry a m ∈ onLaunch env →
      (truthyStr v.executionParams.selector.jobName = true →
        m.lookup "jobName" = some v.executionParams.selector.jobName) ∧
      (truthyStr v.executionParams.selector.jobName = false →
        m.lookup "jobName" = some v.executionParams.selector.pipelineName) := by
  intro a m hm
  obtain ⟨rfl, rfl⟩ := telemetry_mem_onLaunch hv hm
  obtain ⟨⟨⟨jn, pn, ss⟩⟩⟩ := v
  rw [lookup_jobName]
  unfold jsOrOpt
  constructor <;> intro h <;> simp [h]

/-- Witness for C6 at a concrete environment and telemetry event. -/
theorem C6_witness :
    (mkMetadata fullVars).lookup "jobName" =
      some fullVars.executionParams.selector.jobName :=
  (C6_jobName_prefers_explicit envResolved fullVars rfl LAUNCH_RUN
    (mkMetadata fullVars) (by decide)).1 rfl

/-- Claim C7: every invocation that passes the parameter-validity gate performs
the mutation call exactly once (no retry on any outcome) and emits telemetry
at most once. -/
theorem C7_exactly_one_call (env : LaunchEnv)
    (v : LaunchPipelineExecutionVariables) (hv : env.getVariables = some v) :
    countMutations (onLaunch env) = 1 ∧ countTelemetry (onLaunch env) ≤ 1 := by
  obtain ⟨gv, lp, lt, hr, pn, bh⟩ := env
  simp only [LaunchEnv.getVariables] at hv
  subst hv
  rcases lp with e | r <;> rcases lt with e' | u <;> rcases hr with e'' | u' <;>
    simp [onLaunch, countMutations, countTelemetry, List.countP,
      List.countP.go, Event.isMutationCall, Event.isTelemetry]

/-- Witness for C7 at a concrete environment. -/
theorem C7_witness :
    countMutations (onLaunch envResolved) = 1 ∧
      countTelemetry (onLaunch envResolved) ≤ 1 :=
  C7_exactly_one_call envResolved fullVars rfl

/-- Claim C8: when the caller lacks launch permission the rendered button is
disabled and its tooltip is the disabled-reason message; with permission
present no tooltip is set. -/
theorem C8_disabled_button (propsDisabled canLaunch : Bool)
    (propsIcon propsTitle : Option String) :
    (canLaunch = false →
      (launchButtonConfig propsDisabled canLaunch propsIcon propsTitle).disabled = true ∧
      (launchButtonConfig propsDisabled canLaunch propsIcon propsTitle).tooltip =
        some DISABLED_MESSAGE) ∧
    (canLaunch = true →
      (launchButtonConfig propsDisabled canLaunch propsIcon propsTitle).tooltip = none) := by
  constructor <;> intro h <;> subst h <;>
    simp [launchButtonConfig]

/-- Witness for C8 at concrete props. -/
theorem C8_witness :
    (launchButtonConfig false false none none).disabled = true ∧
      (launchButtonConfig false false none none).tooltip = some DISABLED_MESSAGE :=
  (C8_disabled_button false false none none).1 rfl

/-- Claim C9: the try/catch also covers the telemetry emission and the
result-handling step — when either of them throws after a successful
submission, the error is caught and routed to `showLaunchError`, and the
handler still returns a trace (nothing propagates). -/
theorem C9_catch_covers_all (env : LaunchEnv)
    (v : LaunchPipelineExecutionVariables) (r : String)
    (hv : env.getVariables = some v)
    (hr : env.launchPipelineExecution = .ok r) :
    (∀ e, env.logTelemetryOutcome = .error e →
      onLaunch env = [Event.mutationCall v,
        Event.telemetry LAUNCH_RUN (mkMetadata v), Event.showError e]) ∧
    (∀ e, env.logTelemetryOutcome = .ok () →
      env.handleLaunchResultOutcome = .error e →
      onLaunch env = [Event.mutationCall v,
        Event.telemetry LAUNCH_RUN (mkMetadata v),
        Event.handleResult env.pipelineName r env.behavior,
        Event.showError e]) := by
  obtain ⟨gv, lp, lt, hrr, pn, bh⟩ := env
  simp only [LaunchEnv.getVariables] at hv
  simp only [LaunchEnv.launchPipelineExecution] at hr
  subst hv
  subst hr
  constructor
  · intro e he
    simp only [LaunchEnv.logTelemetryOutcome] at he
    subst he
    simp [onLaunch]
  · intro e h1 h2
    simp only [LaunchEnv.logTelemetryOutcome] at h1
    simp only [LaunchEnv.handleLaunchResultOutcome] at h2
    subst h1
    subst h2
    simp [onLaunch]

/-- Witness for C9 at a concrete environment where the telemetry sink throws. -/
theorem C9_witness :
    onLaunch { getVariables := some fullVars
               launchPipelineExecution := .ok "runA"
               logTelemetryOutcome := .error "sink closed"
               handleLaunchResultOutcome := .ok ()
               pipelineName := "pipe1"
               behavior := .openInPlace } =
      [Event.mutationCall fullVars,
        Event.telemetry LAUNCH_RUN (mkMetadata fullVars),
        Event.showError "sink closed"] :=
  (C9_catch_covers_all _ fullVars "runA" rfl rfl).1 "sink closed" rfl

/-- Claim C10: in every telemetry event the action emits, the `jobName` key is
present in the metadata (unlike `opSelection`, never absent), and when both
name fields are empty its value is the (possibly empty) pipeline-name field. -/
theorem C10_jobName_always_present (env : LaunchEnv)
    (v : LaunchPipelineExecutionVariables) (hv : env.getVariables = some v) :
    ∀ a m, Event.telemetry a m ∈ onLaunch env →
      (m.lookup "jobName").isSome = true ∧
      (nameAbsent v = true →
        m.lookup "jobName" = some v.executionParams.selector.pipelineName) := by
  intro a m hm
  obtain ⟨rfl, rfl⟩ := telemetry_mem_onLaunch hv hm
  obtain ⟨⟨⟨jn, pn, ss⟩⟩⟩ := v
  rw [lookup_jobName]
  refine ⟨rfl, ?_⟩
  intro h
  unfold nameAbsent at h
  simp only [Bool.and_eq_true, Bool.not_eq_true'] at h
  unfold jsOrOpt
  simp [h.1]

/-- Witness for C10 at a concrete environment and telemetry event. -/
theorem C10_witness :
    ((mkMetadata emptyNameVars).lookup "jobName").isSome = true ∧
      (nameAbsent emptyNameVars = true →
        (mkMetadata emptyNameVars).lookup "jobName" =
          some emptyNameVars.executionParams.selector.pipelineName) :=
  C10_jobName_always_present envEmptyName emptyNameVars rfl LAUNCH_RUN
    (mkMetadata emptyNameVars) (by decide)

end LaunchRootExecution
